import Mathlib

/-!
Verification of the nodejs-closure-serializer repository.

The development shallowly embeds the parts of the source that the checked
claims are about:

* `src/free-variables.ts` — the free-variable predicate `isFreeVariable`,
  the helper `bindingHasId`, and the scope-chain resolver
  `getFreeVariableValue`;
* `src/parse-function.ts` — the function parser `parseFunction`;
* `src/util.ts` — `nameGenerator`, `isNativeFunction`, `isBoundFunction`;
* `src/serialize-closure.ts` — `serializeFunction` / `serializeValue`
  (value-graph serialization, the per-call value cache, the whitelisted
  globals, the native-function check, `makeLexicallyUniqueName`, and the
  final module-text assembly).

TypeScript AST nodes are modelled with explicit numeric identities (the
source compares nodes with `===`, i.e. object identity).  Live JavaScript
values are modelled as a heap of numbered objects; `===` on non-primitives
is address equality.  Unbounded recursion in the source is modelled with an
explicit fuel argument: a result of `none` means the call did not finish
within the given fuel, and a statement proved for every fuel means the
source recursion never finishes.
-/

namespace ClosureSerializer

/-! ## AST identities and binding patterns (src/free-variables.ts) -/

/-- Identifier node: `text` is the identifier's text, `nodeId` is its object
identity (the source compares nodes with `===`). -/
structure IdentNode where
  nodeId : Nat
  text : String
deriving DecidableEq, Repr

/-- BindingName / BindingElement / OmittedExpression trees, the argument
shapes accepted by `bindingHasId` in src/free-variables.ts. `element` is a
`ts.BindingElement` wrapping its `name`; the patterns hold their elements. -/
inductive Binding where
  | ident (i : IdentNode)
  | omitted
  | element (name : Binding)
  | objectPattern (elements : List Binding)
  | arrayPattern (elements : List Binding)

mutual

/-- Model of `bindingHasId(id, binding)` (src/free-variables.ts lines
384-404): does the binding tree contain the identifier node `id`, compared
by object identity (`binding === id`). -/
def bindingHasId (id : IdentNode) : Binding → Bool
  | .ident b => b.nodeId == id.nodeId
  | .omitted => false
  | .element name => bindingHasId id name
  | .objectPattern elements => bindingListHasId id elements
  | .arrayPattern elements => bindingListHasId id elements

/-- Model of the `binding.elements.find((element) => bindingHasId(id, element))
!== undefined` step of `bindingHasId` over a pattern's element list. -/
def bindingListHasId (id : IdentNode) : List Binding → Bool
  | [] => false
  | b :: rest => bindingHasId id b || bindingListHasId id rest

end

/-- Parent node of an identifier, restricted to exactly the shapes that
`isFreeVariable` (src/free-variables.ts lines 284-377) inspects.  Name
fields record the object identity of the parent's `name` node when that
name is an identifier (`none` when the parent has no name or the name is
not an identifier node), so that `parent.name === node` is id equality. -/
inductive ParentNode where
  | bindingElement (name : Binding)
  | functionDeclaration (name : Option Nat)
  | functionExpression (name : Option Nat)
  | classDeclaration (name : Option Nat)
  | classExpression (name : Option Nat)
  | methodDeclaration (name : Option Nat)
  | parameter (name : Binding)
  | propertyAccessExpression (name : Nat)
  | propertyAccessChain (name : Nat)
  | variableDeclaration (name : Binding)
  | otherParent

/-- A node handed to `isFreeVariable`: either a `ts.Identifier` (together
with its parent node) or any other kind of node. -/
inductive TsNode where
  | identifier (n : IdentNode) (parent : ParentNode)
  | otherNode

/-- Does `parent.name === node` hold for a parent whose `name` is an
optional identifier node (function/class/method declarations and
expressions)? -/
def optNameIs (name : Option Nat) (n : IdentNode) : Bool :=
  match name with
  | some id => id == n.nodeId
  | none => false

/-- Does `parent.name === node` hold for a parent whose `name` is a
`BindingName` (a `ts.ParameterDeclaration`)?  Identity holds only when the
binding name is that very identifier node. -/
def bindingNameIs (name : Binding) (n : IdentNode) : Bool :=
  match name with
  | .ident b => b.nodeId == n.nodeId
  | _ => false

/-- Model of `isFreeVariable(node, lexicalScope)` (src/free-variables.ts
lines 284-377).  Mirrors the source's cascade: non-identifiers are not
free; an identifier whose parent is a `BindingElement` is not free; the
name position of a function/class/method/parameter is not free; the `name`
of a property access (or chain) is not free; an identifier contained in a
`VariableDeclaration`'s binding name (via `bindingHasId`) is not free;
otherwise the identifier is free iff its text is not in `lexicalScope`. -/
def isFreeVariable (node : TsNode) (lexicalScope : List String) : Bool :=
  match node with
  | .otherNode => false
  | .identifier n parent =>
    match parent with
    | .bindingElement _ => false
    | .functionDeclaration name => if optNameIs name n then false else !lexicalScope.contains n.text
    | .functionExpression name => if optNameIs name n then false else !lexicalScope.contains n.text
    | .classDeclaration name => if optNameIs name n then false else !lexicalScope.contains n.text
    | .classExpression name => if optNameIs name n then false else !lexicalScope.contains n.text
    | .methodDeclaration name => if optNameIs name n then false else !lexicalScope.contains n.text
    | .parameter name => if bindingNameIs name n then false else !lexicalScope.contains n.text
    | .propertyAccessExpression name => if name == n.nodeId then false else !lexicalScope.contains n.text
    | .propertyAccessChain name => if name == n.nodeId then false else !lexicalScope.contains n.text
    | .variableDeclaration name => if bindingHasId n name then false else !lexicalScope.contains n.text
    | .otherParent => !lexicalScope.contains n.text

/-- Modelled from the spec's wording of the free-variable rule (§4.3): an
identifier is free iff it is an `Identifier` node, it is not in the name
position of a function/class/method/parameter declaration, it is not the
property-name of a member access, it is not a binding name inside a
variable declarator or binding element, and its text is not in the scope
set.  Note the binding-element clause only excludes the *binding name*
position of the element, not every child of a binding element. -/
def isFreeVariableSpec (node : TsNode) (lexicalScope : List String) : Bool :=
  match node with
  | .otherNode => false
  | .identifier n parent =>
    let namePosition :=
      match parent with
      | .functionDeclaration name => optNameIs name n
      | .functionExpression name => optNameIs name n
      | .classDeclaration name => optNameIs name n
      | .classExpression name => optNameIs name n
      | .methodDeclaration name => optNameIs name n
      | .parameter name => bindingNameIs name n
      | _ => false
    let memberName :=
      match parent with
      | .propertyAccessExpression name => name == n.nodeId
      | .propertyAccessChain name => name == n.nodeId
      | _ => false
    let bindingName :=
      match parent with
      | .variableDeclaration name => bindingHasId n name
      | .bindingElement name => bindingNameIs name n
      | _ => false
    !namePosition && !memberName && !bindingName && !lexicalScope.contains n.text

/-- Amended free-variable rule: identical to `isFreeVariableSpec` except
that *any* identifier whose direct parent is a binding element — including
one in the default-value initializer position — is excluded. -/
def isFreeVariableAmended (node : TsNode) (lexicalScope : List String) : Bool :=
  match node with
  | .otherNode => false
  | .identifier n parent =>
    let namePosition :=
      match parent with
      | .functionDeclaration name => optNameIs name n
      | .functionExpression name => optNameIs name n
      | .classDeclaration name => optNameIs name n
      | .classExpression name => optNameIs name n
      | .methodDeclaration name => optNameIs name n
      | .parameter name => bindingNameIs name n
      | _ => false
    let memberName :=
      match parent with
      | .propertyAccessExpression name => name == n.nodeId
      | .propertyAccessChain name => name == n.nodeId
      | _ => false
    let insideBinding :=
      match parent with
      | .variableDeclaration name => bindingHasId n name
      | .bindingElement _ => true
      | _ => false
    !namePosition && !memberName && !insideBinding && !lexicalScope.contains n.text

/-! ## Scope-chain resolution (src/free-variables.ts, getFreeVariableValue) -/

/-- A single entry of the `[[Scopes]]` array: `scope.object` is optional,
and when present maps variable names to values. -/
structure Scope (α : Type) where
  object : Option (List (String × α))
deriving Repr

/-- Model of the scan loop of `getFreeVariableValue` (src/free-variables.ts
lines 448-456): walk the scopes array in index order (the array is ordered
innermost to outermost, per the source comment and the inspector protocol)
and return the value of the first scope whose `object` binds the name. -/
def scanScopes {α : Type} (freeVariable : String) : List (Scope α) → Option α
  | [] => none
  | scope :: rest =>
    match scope.object with
    | some obj =>
      match obj.lookup freeVariable with
      | some v => some v
      | none => scanScopes freeVariable rest
    | none => scanScopes freeVariable rest

/-- Model of `getFreeVariableValue(closure, freeVariable, throwOnFailure)`
(src/free-variables.ts lines 415-465).  The closure's `[[Scopes]]` internal
property is passed explicitly (`none` models a missing `[[Scopes]]`, which
throws).  `Except.ok none` models resolving to `undefined` without an
error. -/
def getFreeVariableValue {α : Type} (scopes : Option (List (Scope α)))
    (freeVariable : String) (throwOnFailure : Bool) : Except String (Option α) :=
  match scopes with
  | none => .error "Scopes internal property is not defined"
  | some arr =>
    match scanScopes freeVariable arr with
    | some v => .ok (some v)
    | none =>
      if throwOnFailure then
        .error ("Unexpected missing variable in closure environment: " ++ freeVariable)
      else
        .ok none

/-- Modelled from the spec's wording (§4.3): walk the scope chain
outer-to-innermost and return the value from the first scope whose bindings
contain the name.  Since the `[[Scopes]]` array is ordered innermost first,
this walks the reversed array. -/
def resolveOuterFirst {α : Type} (freeVariable : String) (scopes : List (Scope α)) : Option α :=
  scanScopes freeVariable scopes.reverse

/-! ## Theorems for C3 -/

/-- C3 counterexample: in `const { a = b } = c;` the identifier `b` sits in
the default-value initializer position of a binding element, so its direct
parent is the `BindingElement` whose binding name is `a`.  `b` is not a
binding name, not a declaration name, not a member-access name, and its
text is not in the (empty) scope set, so the claimed rule makes it a free
variable — but `isFreeVariable` returns `false` for every identifier whose
parent is a binding element, whatever its position. -/
theorem c3_bindingElement_initializer_counterexample :
    isFreeVariable
        (.identifier ⟨2, "b"⟩ (.bindingElement (.ident ⟨1, "a"⟩))) [] = false
    ∧ isFreeVariableSpec
        (.identifier ⟨2, "b"⟩ (.bindingElement (.ident ⟨1, "a"⟩))) [] = true := by
  constructor <;> rfl

/-- C3 (amended): `isFreeVariable(n, S)` returns true iff `n` is an
identifier, `n` is not in the name position of a function, class, method or
parameter declaration, `n` is not the property-name of a property access
expression or chain, `n` is not contained in a variable declarator's
binding name, `n`'s direct parent is not a binding element (identifiers in
any position inside a binding element are excluded, including default-value
initializers), and `n`'s text is not in the lexical-scope set. -/
theorem c3_isFreeVariable_characterization (node : TsNode) (lexicalScope : List String) :
    isFreeVariable node lexicalScope = isFreeVariableAmended node lexicalScope := by
  cases node with
  | otherNode => rfl
  | identifier n parent =>
    cases parent <;>
      simp only [isFreeVariable, isFreeVariableAmended] <;>
      first
      | rfl
      | (rename_i nm
         first
         | (cases h : nm == n.nodeId <;> simp [h])
         | (cases h : optNameIs nm n <;> simp [h])
         | (cases h : bindingNameIs nm n <;> simp [h])
         | (cases h : bindingHasId n nm <;> simp [h]))

/-! ## Theorems for C4 -/

/-- C4 counterexample: with a scope chain of two scopes both binding `x`
(the `[[Scopes]]` array is ordered innermost first, so index 0 is the
innermost scope binding `x` to 1 and index 1 the outer scope binding `x` to
2), `getFreeVariableValue` returns the innermost value 1, not the value 2
that a walk from the outermost scope inward would return. -/
theorem c4_innermost_first_counterexample :
    getFreeVariableValue (some [⟨some [("x", 1)]⟩, ⟨some [("x", 2)]⟩]) "x" false
      = .ok (some 1)
    ∧ resolveOuterFirst "x" [⟨some [("x", (1 : Nat))]⟩, ⟨some [("x", 2)]⟩] = some 2
    ∧ some (1 : Nat) ≠ some 2 := by
  refine ⟨rfl, rfl, by decide⟩

/-- C4 (amended): the resolver walks the `[[Scopes]]` array in its given
order — innermost to outermost — and returns the value from the first
scope whose bindings contain the name (equivalently, it behaves as the
outer-to-innermost walk of the reversed chain); if no scope binds the name
and `throwOnFailure` is false it returns `undefined` without an error. -/
theorem c4_resolution_order {α : Type} :
    (∀ (scopes : List (Scope α)) (name : String),
      getFreeVariableValue (some scopes) name false
        = .ok (resolveOuterFirst name scopes.reverse))
    ∧ (∀ (scopes : List (Scope α)) (name : String),
      scanScopes name scopes = none →
        getFreeVariableValue (some scopes) name false = .ok none) := by
  constructor
  · intro scopes name
    unfold getFreeVariableValue resolveOuterFirst
    rw [List.reverse_reverse]
    cases h : scanScopes name scopes <;> simp [h]
  · intro scopes name h
    unfold getFreeVariableValue
    simp [h]

/-- C4 witness: instantiates `c4_resolution_order` at a concrete scope
chain whose single scope does not bind the requested name. -/
theorem c4_resolution_order_witness :
    getFreeVariableValue (some [⟨some [("y", (7 : Nat))]⟩]) "x" false = .ok none :=
  c4_resolution_order.2 [⟨some [("y", 7)]⟩] "x" rfl

/-! ## String helpers shared by src/util.ts models -/

/-- Does `pat` occur as a contiguous run inside the character list?  This is
the `indexOf(pat) !== -1` test on strings, phrased structurally. -/
def listContainsRun (pat : List Char) : List Char → Bool
  | [] => pat.isEmpty
  | c :: rest => pat.isPrefixOf (c :: rest) || listContainsRun pat rest

/-- Model of `isNativeFunction(funcString)` (src/util.ts lines 23-25): the
source text contains the marker `[native code]`. -/
def isNativeFunction (funcString : String) : Bool :=
  listContainsRun "[native code]".data funcString.data

/-- Model of `isBoundFunction(func)` (src/util.ts lines 27-31): the
function's declared name starts with `bound `. -/
def isBoundFunction (name : String) : Bool :=
  "bound ".data.isPrefixOf name.data

/-! ## Function values and the native-function check
(src/serialize-closure.ts lines 113-130) -/

/-- Data the serializer reads off a live function: its `toString()` source,
its declared name, and the `[[TargetFunction]]` internal property (an
address into the function heap) when the engine exposes one. -/
structure FnData where
  src : String
  name : String
  target : Option Nat
deriving DecidableEq, Repr

/-! ## Function parsing (src/parse-function.ts) -/

/-- Shape of a single top-level statement of the parsed source file,
restricted to what `parseFunction` inspects: function/class declarations,
expression statements wrapping function/arrow/class expressions, expression
statements wrapping anything else, and any other statement kind. -/
inductive PStmt where
  | funcDecl
  | classDecl
  | exprFunc
  | exprArrow
  | exprClass
  | exprOther
  | otherStmt
deriving DecidableEq, Repr

/-- The acceptance test of `parseFunction` (src/parse-function.ts lines
50-61): a single statement is taken when it is a function/class
declaration or an expression statement wrapping a function, arrow, or
class expression. -/
def isClosureStmt : PStmt → Bool
  | .funcDecl => true
  | .classDecl => true
  | .exprFunc => true
  | .exprArrow => true
  | .exprClass => true
  | _ => false

/-- Model of `parseFunction(funcString)` (src/parse-function.ts lines
34-74), parameterized by the external syntax-tree provider `parse` (the
concrete AST library is outside the spec's scope).  Zero statements throw;
one statement is accepted iff it has a closure shape, else throws; more
than one statement re-parses with `function ` prepended — with no bound on
the number of retries.  `none` models not finishing within the fuel. -/
def parseFunctionModel (parse : String → List PStmt) : Nat → String → Option (Except String PStmt)
  | 0, _ => none
  | fuel + 1, s =>
    match parse s with
    | [] => some (.error ("failed to parse function: " ++ s))
    | [stmt] =>
      if isClosureStmt stmt then some (.ok stmt)
      else some (.error ("Failed to parse function to Class, Function or ArrowFunction: " ++ s))
    | _ :: _ :: _ => parseFunctionModel parse fuel ("function " ++ s)

/-- Number of parse attempts `parseFunction` makes on `s` before either
settling or exhausting the fuel. -/
def parseAttempts (parse : String → List PStmt) : Nat → String → Nat
  | 0, _ => 0
  | fuel + 1, s =>
    match parse s with
    | [] => 1
    | [_] => 1
    | _ :: _ :: _ => 1 + parseAttempts parse fuel ("function " ++ s)

/-! ## Theorems for C6 -/

/-- C6 counterexample: under a syntax-tree provider for which the input and
both retried inputs all parse to two top-level statements (method-shorthand
fragments with a trailing statement behave this way under the error-
tolerant parser), `parseFunction` makes three parse attempts within fuel 3
— more than the claimed two — and is still running (it never fails with an
error; it keeps prepending `function `). -/
theorem c6_more_than_two_attempts_counterexample :
    parseAttempts (fun _ => [.otherStmt, .otherStmt]) 3 "x; y" = 3
    ∧ 2 < parseAttempts (fun _ => [.otherStmt, .otherStmt]) 3 "x; y"
    ∧ parseFunctionModel (fun _ => [.otherStmt, .otherStmt]) 3 "x; y" = none := by
  refine ⟨rfl, by decide, rfl⟩

/-- C6 (amended): a parse that yields zero statements fails with an error;
a single-statement parse is accepted iff the statement is a function/class
declaration or an expression statement wrapping a function, arrow, or
class expression, and fails with an error otherwise; a parse with more
than one statement retries with `function ` prepended — and the retries
are unbounded, not capped at two: under a provider that always yields two
statements the parser never settles, for any amount of fuel. -/
theorem c6_parse_characterization (parse : String → List PStmt) (fuel : Nat) (s : String) :
    (parse s = [] →
      parseFunctionModel parse (fuel + 1) s
        = some (.error ("failed to parse function: " ++ s)))
    ∧ (∀ stmt, parse s = [stmt] → isClosureStmt stmt = true →
      parseFunctionModel parse (fuel + 1) s = some (.ok stmt))
    ∧ (∀ stmt, parse s = [stmt] → isClosureStmt stmt = false →
      parseFunctionModel parse (fuel + 1) s
        = some (.error ("Failed to parse function to Class, Function or ArrowFunction: " ++ s)))
    ∧ (∀ a b rest, parse s = a :: b :: rest →
      parseFunctionModel parse (fuel + 1) s = parseFunctionModel parse fuel ("function " ++ s))
    ∧ (∀ n t, parseFunctionModel (fun _ => [PStmt.otherStmt, PStmt.otherStmt]) n t = none) := by
  refine ⟨?_, ?_, ?_, ?_, ?_⟩
  · intro h
    simp [parseFunctionModel, h]
  · intro stmt h hc
    simp [parseFunctionModel, h, hc]
  · intro stmt h hc
    simp [parseFunctionModel, h, hc]
  · intro a b rest h
    simp [parseFunctionModel, h]
  · intro n
    induction n with
    | zero => intro t; rfl
    | succ k ih =>
      intro t
      simpa [parseFunctionModel] using ih ("function " ++ t)

/-- C6 witness: instantiates `c6_parse_characterization` on a provider that
parses the input to a single arrow-function expression statement. -/
theorem c6_parse_characterization_witness :
    parseFunctionModel (fun _ => [PStmt.exprArrow]) 1 "() => x" = some (.ok .exprArrow) :=
  (c6_parse_characterization (fun _ => [PStmt.exprArrow]) 0 "() => x").2.1 .exprArrow rfl rfl

/-! ## Name minting (src/util.ts nameGenerator,
src/serialize-closure.ts makeLexicallyUniqueName) -/

/-- Model of the `nextName` step of `nameGenerator(prefix)` (src/util.ts
lines 7-21): increment the counter and render `pfx` followed by the
decimal counter value. -/
def nextName (pfx : String) (i : Nat) : String × Nat :=
  (pfx ++ Nat.repr (i + 1), i + 1)

/-- Model of the exclude-set loop of `nameGenerator` (src/util.ts lines
12-20): keep taking the next name while it is in the exclude set.  The
loop is given explicit fuel; `none` models not finishing. -/
def nextNameLoop (pfx : String) (exclude : List String) : Nat → Nat → Option (String × Nat)
  | _, 0 => none
  | i, fuel + 1 =>
    let (name, i') := nextName pfx i
    if exclude.contains name then nextNameLoop pfx exclude i' fuel
    else some (name, i')

/-- Model of the loop of `makeLexicallyUniqueName(desiredName)`
(src/serialize-closure.ts lines 496-504): while the current candidate is
in the lexical scope, replace it by `desiredName` followed by the decimal
rendering of `i` — where `i` is initialized to 0 and never incremented, as
in the source.  `none` models not finishing within the fuel. -/
def makeLexicallyUniqueNameLoop (desiredName : String) (lexicalScope : List String)
    (tmp : String) (i : Nat) : Nat → Option String
  | 0 => none
  | fuel + 1 =>
    if lexicalScope.contains tmp then
      makeLexicallyUniqueNameLoop desiredName lexicalScope (desiredName ++ Nat.repr i) i fuel
    else some tmp

/-- Model of `makeLexicallyUniqueName(desiredName)` over the current
lexical-scope set: run the loop from `tmp = desiredName`, `i = 0`. -/
def makeLexicallyUniqueName (desiredName : String) (lexicalScope : List String)
    (fuel : Nat) : Option String :=
  makeLexicallyUniqueNameLoop desiredName lexicalScope desiredName 0 fuel

/-! ## Theorems for C7 -/

/-- C7 helper: once the candidate is `_self0` the loop never changes it
again (the counter `i` stays 0), so against a scope containing `_self0`
the loop runs forever. -/
theorem c7_self0_loop (fuel : Nat) :
    makeLexicallyUniqueNameLoop "_self" ["_self", "_self0"] "_self0" 0 fuel = none := by
  induction fuel with
  | zero => rfl
  | succ k ih =>
    have hc : (["_self", "_self0"].contains "_self0") = true := by decide
    simpa [makeLexicallyUniqueNameLoop, hc] using ih

/-- C7: `makeLexicallyUniqueName` does not terminate on the desired name
`_self` when the lexical scope already contains both `_self` and `_self0`:
the source never increments its tail counter `i`, so the candidate stays
`_self0` forever and no fuel suffices — contradicting the claim that the
collision-avoiding minting operations terminate by incrementing a numeric
tail suffix until the produced name is free. -/
theorem c7_makeLexicallyUniqueName_diverges (fuel : Nat) :
    makeLexicallyUniqueName "_self" ["_self", "_self0"] fuel = none := by
  cases fuel with
  | zero => rfl
  | succ k =>
    have hc : (["_self", "_self0"].contains "_self") = true := by decide
    have h0 : "_self" ++ Nat.repr 0 = "_self0" := by decide
    simpa [makeLexicallyUniqueName, makeLexicallyUniqueNameLoop, hc, h0] using c7_self0_loop k

/-! ## Module-text assembly (src/serialize-closure.ts lines 88-92) -/

/-- Model of the module text returned by `serializeFunction`: the emitted
statements joined with newlines, then a newline, then
`exports.handler = `, the root closure's identifier text, and `()` exactly
when `isFactoryFunction` is set. -/
def serializeModuleText (statements : List String) (handlerText : String)
    (isFactoryFunction : Bool) : String :=
  String.intercalate "\n" statements ++ "\nexports.handler = " ++ handlerText
    ++ (if isFactoryFunction then "()" else "")

/-! ## Theorems for C8 -/

/-- C8 counterexample: the emitted module text does not end with a
semicolon.  With one emitted statement and root identifier `v1`, the last
character is `1` in normal mode and `)` in factory mode — never `;`. -/
theorem c8_no_trailing_semicolon_counterexample :
    (serializeModuleText ["var v2;"] "v1" false).data.getLast? = some '1'
    ∧ (serializeModuleText ["var v2;"] "v1" true).data.getLast? = some ')'
    ∧ some '1' ≠ some ';' ∧ some ')' ≠ some ';' := by
  refine ⟨rfl, rfl, by decide, by decide⟩

/-- C8 (amended): the module text ends with `exports.handler = ` followed
by the root closure's identifier, with `()` appended exactly when
`isFactoryFunction` is set, and with no trailing semicolon: when the
identifier is nonempty the final character is the identifier's last
character in normal mode and `)` in factory mode. -/
theorem c8_module_tail (statements : List String) (handlerText : String)
    (isFactoryFunction : Bool) :
    (∃ p, serializeModuleText statements handlerText isFactoryFunction
      = p ++ ("\nexports.handler = " ++ handlerText
          ++ (if isFactoryFunction then "()" else "")))
    ∧ (handlerText.data ≠ [] →
      (serializeModuleText statements handlerText isFactoryFunction).data.getLast?
        = if isFactoryFunction then some ')' else handlerText.data.getLast?) := by
  constructor
  · refine ⟨String.intercalate "\n" statements, ?_⟩
    simp [serializeModuleText, String.append_assoc]
  · intro h
    cases isFactoryFunction with
    | false =>
      simp only [serializeModuleText, Bool.false_eq_true, if_false]
      rw [String.data_append, String.data_append, String.data_append]
      simp only [show ("" : String).data = [] from rfl, List.append_nil]
      rw [List.getLast?_append_of_ne_nil _ h]
    | true =>
      simp only [serializeModuleText, if_true]
      rw [String.data_append, String.data_append, String.data_append]
      rw [List.getLast?_append_of_ne_nil _ (by decide)]
      rfl

/-- C8 witness: instantiates `c8_module_tail` with no statements, root
identifier `v1`, factory mode off. -/
theorem c8_module_tail_witness :
    (serializeModuleText [] "v1" false).data.getLast? = some '1' := by
  have h := (c8_module_tail [] "v1" false).2 (by decide)
  simpa using h

/-! ## The value-graph serializer (src/serialize-closure.ts lines 98-479)

Live JavaScript values are a heap of numbered non-primitives; `===` on
non-primitives is address equality, so the `Map` used as the per-call
value cache is an association list keyed by the modelled value.  The
statement printer and the closure-body construction (parsing the
function's source, free-variable analysis and the IIFE wrapper of
`createClosureStatement`) are abstracted: an emitted closure statement is
recorded as a single `closureDecl` carrying the chosen name and the
function's address, which is all the claims below inspect.  The modelled
function data (source text, declared name, bound target) carries no free
variables, so nothing observable is lost by this abstraction. -/

/-- A live JavaScript value: the six inlined primitive shapes, symbols
(identified by a number, since symbols compare by identity), and references
into the heap of objects and functions.  JS numbers are modelled as
integers; `NaN` and `-0` play no role in the claims below. -/
inductive JsVal where
  | undef
  | nullV
  | boolean (b : Bool)
  | number (n : Int)
  | strV (s : String)
  | bigint (n : Int)
  | symbol (id : Nat)
  | ref (addr : Nat)
deriving DecidableEq, Repr

/-- A heap entry: a plain object, or a function with the data
`serializeFunction` reads off it.  For an object, `ownHasOwnProperty`
records whether the object has an own callable `hasOwnProperty` property
(true for `Object.prototype`, which carries the built-in one as a
non-enumerable own property; false for ordinary objects, which only
inherit it); `ctorOwn` is its own `constructor` property when it has one;
`proto` its prototype; `keys` its own enumerable string-keyed properties
in order. -/
inductive HeapObj where
  | objectData (ownHasOwnProperty : Bool) (ctorOwn : Option JsVal) (proto : JsVal)
      (keys : List (String × JsVal))
  | funcData (f : FnData)

/-- The expressions `serializeValue` returns: identifier references and the
inlined primitive literals (src/serialize-closure.ts lines 361-374). -/
inductive Expr where
  | identE (name : String)
  | trueE
  | falseE
  | numLit (n : Int)
  | strLit (s : String)
  | bigintLit (n : Int)
deriving DecidableEq, Repr

/-- The statements the serializer emits, in the abstracted form described
above: the hoisted `var <name>;`, the object literal declaration
`var <name> = { ... };`, the `Object.setPrototypeOf(<name>, <expr>);`
call, and the closure-instantiating statement for a function value. -/
inductive Stmt where
  | varDecl (name : String)
  | objectDecl (name : String) (props : List (String × Expr))
  | setProtoOf (name : String) (proto : Expr)
  | closureDecl (name : String) (addr : Nat)

/-- The errors the modelled serializer can raise: the thrown `Cannot
handle native function` error, and the engine `TypeError` raised by the
member call `value.hasOwnProperty("constructor")` when the value does not
inherit `hasOwnProperty` (a null-prototype object). -/
inductive SErr where
  | nativeFunction (src : String)
  | typeError (msg : String)
deriving DecidableEq, Repr

/-- Identities of the whitelisted global built-ins, compared by `===` in
src/serialize-closure.ts lines 388-398. -/
structure Globals where
  objectAddr : Nat
  functionAddr : Nat
  stringAddr : Nat
  arrayAddr : Nat
  numberAddr : Nat

/-- The per-call serializer state: the counter backing the `v`-prefixed
name generator, the emitted statements, and the per-call value cache. -/
structure SState where
  counter : Nat
  statements : List Stmt
  valueCache : List (JsVal × Expr)

/-- Result type of a serializing step: `none` models not finishing within
the fuel; `some (.error e)` a thrown error; `some (.ok a)` completion. -/
def SRes (α : Type) : Type := Option (Except SErr α)

/-- Sequencing of serializing steps: divergence and errors propagate. -/
def rbind {α β : Type} (x : SRes α) (f : α → SRes β) : SRes β :=
  match x with
  | none => none
  | some (.error e) => some (.error e)
  | some (.ok a) => f a

theorem rbind_none {α β : Type} (f : α → SRes β) : rbind none f = none := rfl

theorem rbind_error {α β : Type} (e : SErr) (f : α → SRes β) :
    rbind (some (.error e)) f = some (.error e) := rfl

theorem rbind_ok {α β : Type} (a : α) (f : α → SRes β) : rbind (some (.ok a)) f = f a := rfl

/-- Model of `serializeFunction(func, props)` (src/serialize-closure.ts
lines 98-204).  The native-function prefix (lines 113-130): a native
source that is a bound wrapper with recoverable `[[TargetFunction]]`
internals recurses on the target — dropping the caller's `variableName`,
as the source does on line 122 — and any other native source throws
`Cannot handle native function`.  A non-native function takes
`props.variableName` or mints the next `v`-name (line 133), caches an
identifier for the function under that name (line 136) *before* walking
its body, emits the closure statement and returns the identifier.  The
closure statement's body construction is abstracted as described above. -/
def serializeFunctionM (heap : List (Nat × HeapObj)) :
    Nat → Nat → Option String → SState → SRes (Expr × SState)
  | 0, _, _, _ => none
  | fuel + 1, addr, variableName, st =>
    match heap.lookup addr with
    | some (.funcData f) =>
      if isNativeFunction f.src then
        if isBoundFunction f.name then
          match f.target with
          | some t => serializeFunctionM heap fuel t none st
          | none => some (.error (.nativeFunction f.src))
        else some (.error (.nativeFunction f.src))
      else
        let nc := match variableName with
          | some n => (n, st.counter)
          | none => nextName "v" st.counter
        some (.ok (.identE nc.1,
          ⟨nc.2, st.statements ++ [.closureDecl nc.1 addr],
           (JsVal.ref addr, Expr.identE nc.1) :: st.valueCache⟩))
    | _ => none

/-- JavaScript truthiness of a modelled value, deciding the
`prototype ? await serializeValue(prototype) : undefined` conditional
(src/serialize-closure.ts lines 413-416). -/
def truthy : JsVal → Bool
  | .undef => false
  | .nullV => false
  | .boolean b => b
  | .number n => n != 0
  | .strV s => s != ""
  | .bigint n => n != 0
  | .symbol _ => true
  | .ref _ => true

/-- Member lookup of `hasOwnProperty` on a value, walking the prototype
chain: the call `value.hasOwnProperty(...)` resolves iff the value or
something on its chain provides the method.  Ordinary functions always
inherit it (through `Function.prototype` and `Object.prototype`); a chain
ending in `null` without passing an object that carries it — the
null-prototype object case — does not resolve, and the member call throws
a `TypeError`.  Prototype chains are acyclic in the engine, so a walk of
`heap.length + 1` steps (the fuel the caller passes) visits every possible
chain entry. -/
def resolvesHasOwnProperty (heap : List (Nat × HeapObj)) : Nat → JsVal → Bool
  | 0, _ => false
  | fuel + 1, v =>
    match v with
    | .ref addr =>
      match heap.lookup addr with
      | some (.objectData own _ proto _) => own || resolvesHasOwnProperty heap fuel proto
      | some (.funcData _) => true
      | none => false
    | _ => false

/-- The `prototype` step of the object case: serialize the prototype when
it is truthy (it is an object or `null` in practice), else no prototype
expression. -/
def serializeProtoF (sv : JsVal → SState → SRes (Expr × SState)) (proto : JsVal)
    (st : SState) : SRes (Option Expr × SState) :=
  if truthy proto then
    rbind (sv proto st) fun es => some (.ok (some es.1, es.2))
  else some (.ok (none, st))

/-- The own-property walk of the object case (src/serialize-closure.ts
lines 418-431): serialize each own property's value in key order, skipping
keys in `omitProperties`, and collect the property assignments. -/
def serializePropsF (sv : JsVal → SState → SRes (Expr × SState))
    (omitProps : Option (List String)) :
    List (String × JsVal) → SState → SRes (List (String × Expr) × SState)
  | [], st => some (.ok ([], st))
  | (k, v) :: rest, st =>
    if (omitProps.getD []).contains k then serializePropsF sv omitProps rest st
    else
      rbind (sv v st) fun es =>
        rbind (serializePropsF sv omitProps rest es.2) fun ps =>
          some (.ok ((k, es.1) :: ps.1, ps.2))

/-- Model of `serializeValue(value, serializeValueProps)`
(src/serialize-closure.ts lines 345-479).  Primitives are inlined as
literals and never cached.  Any other value is looked up in the per-call
value cache, whose hit returns the cached expression.  On a miss the next
`v`-name is minted against `illegalNames` and a hoisted `var` statement is
emitted first.  A function value is matched by identity against the
whitelisted globals — returning the bare global identifier — and otherwise
handed to `serializeFunctionM` with the minted name.  A plain object first
evaluates `value.hasOwnProperty("constructor")` (line 404) — a member call
that throws a `TypeError` when the object does not inherit
`hasOwnProperty`, i.e. for null-prototype objects — then serializes its
own `constructor` (or `undefined`), then its prototype when truthy, then
its own properties, then emits the object literal declaration followed by
a `setPrototypeOf` call when a prototype expression was produced, and
returns its identifier.  Any remaining value (a symbol)
falls through to `return ts.factory.createIdentifier("undefined")`
(line 475).  No branch of this function inserts into the value cache; only
`serializeFunctionM` does.  The `preSerializeValue` hook is absent
(`serializeProps.preSerializeValue` undefined). -/
def serializeValue (heap : List (Nat × HeapObj)) (G : Globals)
    (illegalNames : List String) (omitProps : Option (List String)) :
    Nat → JsVal → SState → SRes (Expr × SState)
  | 0, _, _ => none
  | fuel + 1, value, st =>
    match value with
    | .undef => some (.ok (.identE "undefined", st))
    | .nullV => some (.ok (.identE "null", st))
    | .boolean b => some (.ok (if b then .trueE else .falseE, st))
    | .number n => some (.ok (.numLit n, st))
    | .strV s => some (.ok (.strLit s, st))
    | .bigint n => some (.ok (.bigintLit n, st))
    | v =>
      match st.valueCache.lookup v with
      | some e => some (.ok (e, st))
      | none =>
        match nextNameLoop "v" illegalNames st.counter (illegalNames.length + 1) with
        | none => none
        | some (variableName, counter') =>
          let st1 : SState :=
            ⟨counter', st.statements ++ [.varDecl variableName], st.valueCache⟩
          match v with
          | .ref addr =>
            match heap.lookup addr with
            | some (.funcData _) =>
              if addr == G.objectAddr then some (.ok (.identE "Object", st1))
              else if addr == G.functionAddr then some (.ok (.identE "Function", st1))
              else if addr == G.stringAddr then some (.ok (.identE "String", st1))
              else if addr == G.arrayAddr then some (.ok (.identE "Array", st1))
              else if addr == G.numberAddr then some (.ok (.identE "Number", st1))
              else serializeFunctionM heap fuel addr (some variableName) st1
            | some (.objectData _ ctorOwn proto keys) =>
              if !resolvesHasOwnProperty heap (heap.length + 1) (.ref addr) then
                some (.error (.typeError "value.hasOwnProperty is not a function"))
              else
              rbind (serializeValue heap G illegalNames omitProps fuel
                  (ctorOwn.getD .undef) st1) fun cs =>
                rbind (serializeProtoF
                    (fun w s => serializeValue heap G illegalNames omitProps fuel w s)
                    proto cs.2) fun oc =>
                  rbind (serializePropsF
                      (fun w s => serializeValue heap G illegalNames omitProps fuel w s)
                      omitProps keys oc.2) fun ps =>
                    some (.ok (.identE variableName,
                      ⟨ps.2.counter,
                       ps.2.statements ++ [.objectDecl variableName ps.1]
                         ++ (match oc.1 with
                             | some pe => [.setProtoOf variableName pe]
                             | none => []),
                       ps.2.valueCache⟩))
            | none => none
          | _ => some (.ok (.identE "undefined", st1))

/-- Number of object literal declarations in an emitted statement list. -/
def countObjectDecls : List Stmt → Nat
  | [] => 0
  | .objectDecl _ _ :: rest => countObjectDecls rest + 1
  | _ :: rest => countObjectDecls rest

/-- Modelled from the spec's wording (§7, §9) of claim C5: serialization
fails with the native-function error exactly when the function's source
contains the `[native code]` marker and the function is not a bound
wrapper with a recoverable target. -/
def nativeFailsSpec (f : FnData) : Bool :=
  isNativeFunction f.src && !(isBoundFunction f.name && f.target.isSome)

/-! ## Theorems for C5 -/

/-- C5 counterexample: a bound wrapper of a native function, e.g.
`Math.max.bind(null)`.  Address 0 is the wrapper: native source, name
`bound max`, recoverable `[[TargetFunction]]` at address 1; address 1 is
the native non-bound `Math.max`.  The claim says such a bound wrapper
serializes successfully — and indeed the claimed failure condition
`nativeFailsSpec` is false for it — but `serializeFunction` unwraps to the
target and then throws `Cannot handle native function` on the target's
source, so the call fails. -/
theorem c5_bound_native_counterexample :
    serializeFunctionM
        [(0, .funcData ⟨"function () { [native code] }", "bound max", some 1⟩),
         (1, .funcData ⟨"function max() { [native code] }", "max", none⟩)]
        5 0 none ⟨0, [], []⟩
      = some (.error (.nativeFunction "function max() { [native code] }"))
    ∧ nativeFailsSpec ⟨"function () { [native code] }", "bound max", some 1⟩ = false := by
  constructor <;> rfl

/-- C5 (amended): `serializeFunction` throws the `Cannot handle native
function` error exactly for the function reached after transitively
unwrapping recoverable bound wrappers, when that function's source
contains `[native code]`: a non-native function proceeds to closure
serialization (emitting its closure statement and caching its identifier);
a native function that is not a bound wrapper, or a bound wrapper without
recoverable internals, throws; and a bound wrapper with a recoverable
target behaves exactly as serializing the target — so a bound wrapper of
a native non-bound function also fails. -/
theorem c5_native_check_characterization (heap : List (Nat × HeapObj))
    (fuel addr : Nat) (f : FnData) (vn : Option String) (st : SState)
    (haddr : heap.lookup addr = some (.funcData f)) :
    (isNativeFunction f.src = false →
      ∃ name st', serializeFunctionM heap (fuel + 1) addr vn st = some (.ok (.identE name, st'))
        ∧ st'.statements = st.statements ++ [.closureDecl name addr]
        ∧ st'.valueCache = (JsVal.ref addr, Expr.identE name) :: st.valueCache)
    ∧ (isNativeFunction f.src = true → isBoundFunction f.name = false →
      serializeFunctionM heap (fuel + 1) addr vn st = some (.error (.nativeFunction f.src)))
    ∧ (isNativeFunction f.src = true → isBoundFunction f.name = true → f.target = none →
      serializeFunctionM heap (fuel + 1) addr vn st = some (.error (.nativeFunction f.src)))
    ∧ (∀ t, isNativeFunction f.src = true → isBoundFunction f.name = true → f.target = some t →
      serializeFunctionM heap (fuel + 1) addr vn st = serializeFunctionM heap fuel t none st) := by
  refine ⟨?_, ?_, ?_, ?_⟩
  · intro h
    cases vn with
    | some n =>
      refine ⟨n, ⟨st.counter, st.statements ++ [.closureDecl n addr],
        (JsVal.ref addr, Expr.identE n) :: st.valueCache⟩, ?_, rfl, rfl⟩
      simp [serializeFunctionM, haddr, h]
    | none =>
      refine ⟨(nextName "v" st.counter).1,
        ⟨(nextName "v" st.counter).2,
         st.statements ++ [.closureDecl (nextName "v" st.counter).1 addr],
         (JsVal.ref addr, Expr.identE (nextName "v" st.counter).1) :: st.valueCache⟩, ?_, rfl, rfl⟩
      simp [serializeFunctionM, haddr, h]
  · intro h hb
    simp [serializeFunctionM, haddr, h, hb]
  · intro h hb ht
    simp [serializeFunctionM, haddr, h, hb, ht]
  · intro t h hb ht
    simp [serializeFunctionM, haddr, h, hb, ht]

/-- C5 witness: instantiates `c5_native_check_characterization` on a
one-function heap holding a plain user function, which proceeds to closure
serialization. -/
theorem c5_native_check_witness :
    ∃ name st',
      serializeFunctionM [(0, .funcData ⟨"function f() { return 1; }", "f", none⟩)]
          1 0 none ⟨0, [], []⟩
        = some (.ok (.identE name, st'))
      ∧ st'.statements = ([] : List Stmt) ++ [.closureDecl name 0]
      ∧ st'.valueCache = [(JsVal.ref 0, Expr.identE name)] :=
  (c5_native_check_characterization
      [(0, .funcData ⟨"function f() { return 1; }", "f", none⟩)] 0 0
      ⟨"function f() { return 1; }", "f", none⟩ none ⟨0, [], []⟩ rfl).1 (by decide)

/-! ## Theorems for C9 -/

/-- C9 counterexample: serializing a captured reference to the global
`Object` (heap address 10, registered as the whitelisted `objectAddr`)
returns the bare identifier `Object` and emits no copy of its definition —
but it does emit a new (unused, hoisted) `var v1;` declaration, because
the whitelist check runs only after the hoisted-variable emission; so the
claim's "emits ... nor a new variable declaration for it" is false. -/
theorem c9_global_var_emitted_counterexample :
    serializeValue [(10, .funcData ⟨"function Object() { [native code] }", "Object", none⟩)]
        ⟨10, 11, 12, 13, 14⟩ [] none 3 (.ref 10) ⟨0, [], []⟩
      = some (.ok (.identE "Object", ⟨1, [.varDecl "v1"], []⟩))
    ∧ ([Stmt.varDecl "v1"] : List Stmt) ≠ ([] : List Stmt) := by
  refine ⟨rfl, by simp⟩

/-- C9 (amended): a captured value that is identity-equal (`===`) to the
whitelisted global `Object` is rendered as the bare global identifier
`Object`, with no copy of its definition and no assignment — the only
statement emitted for it is the unused hoisted `var` declaration that
precedes the whitelist check, and the value is not cached; and whitelist
membership is decided by value identity, not by identifier text: a
function at a different address is handed to closure serialization
(`serializeFunctionM`) even if its declared name is `Object`. -/
theorem c9_globals_by_identity (heap : List (Nat × HeapObj)) (G : Globals)
    (illegalNames : List String) (omitProps : Option (List String)) :
    (∀ fuel st f nm c',
      st.valueCache.lookup (.ref G.objectAddr) = none →
      heap.lookup G.objectAddr = some (.funcData f) →
      nextNameLoop "v" illegalNames st.counter (illegalNames.length + 1) = some (nm, c') →
      serializeValue heap G illegalNames omitProps (fuel + 1) (.ref G.objectAddr) st
        = some (.ok (.identE "Object",
            ⟨c', st.statements ++ [.varDecl nm], st.valueCache⟩)))
    ∧ (∀ fuel st f addr nm c',
      st.valueCache.lookup (.ref addr) = none →
      heap.lookup addr = some (.funcData f) →
      nextNameLoop "v" illegalNames st.counter (illegalNames.length + 1) = some (nm, c') →
      (addr == G.objectAddr) = false → (addr == G.functionAddr) = false →
      (addr == G.stringAddr) = false → (addr == G.arrayAddr) = false →
      (addr == G.numberAddr) = false →
      serializeValue heap G illegalNames omitProps (fuel + 1) (.ref addr) st
        = serializeFunctionM heap fuel addr (some nm)
            ⟨c', st.statements ++ [.varDecl nm], st.valueCache⟩) := by
  constructor
  · intro fuel st f nm c' hcache hheap hname
    simp [serializeValue, hcache, hheap, hname]
  · intro fuel st f addr nm c' hcache hheap hname h1 h2 h3 h4 h5
    simp [serializeValue, hcache, hheap, hname, h1, h2, h3, h4, h5]

/-- C9 witness: instantiates both parts of `c9_globals_by_identity` — the
whitelisted `Object` at address 10 is rendered as the global identifier,
and a reassigned value of a different identity whose declared name is also
`Object` (address 20) is handed to closure serialization. -/
theorem c9_globals_by_identity_witness :
    serializeValue
        [(10, .funcData ⟨"function Object() { [native code] }", "Object", none⟩),
         (20, .funcData ⟨"function Object() { return 42; }", "Object", none⟩)]
        ⟨10, 11, 12, 13, 14⟩ [] none 3 (.ref 10) ⟨0, [], []⟩
      = some (.ok (.identE "Object", ⟨1, [.varDecl "v1"], []⟩))
    ∧ serializeValue
        [(10, .funcData ⟨"function Object() { [native code] }", "Object", none⟩),
         (20, .funcData ⟨"function Object() { return 42; }", "Object", none⟩)]
        ⟨10, 11, 12, 13, 14⟩ [] none 3 (.ref 20) ⟨0, [], []⟩
      = serializeFunctionM
          [(10, .funcData ⟨"function Object() { [native code] }", "Object", none⟩),
           (20, .funcData ⟨"function Object() { return 42; }", "Object", none⟩)]
          2 20 (some "v1") ⟨1, [.varDecl "v1"], []⟩ := by
  constructor
  · exact (c9_globals_by_identity _ ⟨10, 11, 12, 13, 14⟩ [] none).1 2 ⟨0, [], []⟩
      ⟨"function Object() { [native code] }", "Object", none⟩ "v1" 1 rfl rfl rfl
  · exact (c9_globals_by_identity _ ⟨10, 11, 12, 13, 14⟩ [] none).2 2 ⟨0, [], []⟩
      ⟨"function Object() { return 42; }", "Object", none⟩ 20 "v1" 1 rfl rfl rfl
      rfl rfl rfl rfl rfl

/-! ## Theorems for C10 -/

/-- C10: a captured value of a runtime type handled by none of the
serializer's cases — not an inlined primitive and neither of typeof
`function` or `object`, i.e. a symbol — raises no error: after the hoisted
`var` declaration has been emitted for it (and left unused), `serializeValue`
falls through every branch and returns the identifier `undefined`, so the
value is silently replaced by `undefined` in the emitted module. -/
theorem c10_unhandled_type_returns_undefined (heap : List (Nat × HeapObj)) (G : Globals)
    (illegalNames : List String) (omitProps : Option (List String))
    (fuel : Nat) (st : SState) (id : Nat) (nm : String) (c' : Nat)
    (hcache : st.valueCache.lookup (.symbol id) = none)
    (hname : nextNameLoop "v" illegalNames st.counter (illegalNames.length + 1)
      = some (nm, c')) :
    serializeValue heap G illegalNames omitProps (fuel + 1) (.symbol id) st
      = some (.ok (.identE "undefined",
          ⟨c', st.statements ++ [.varDecl nm], st.valueCache⟩)) := by
  simp [serializeValue, hcache, hname]

/-- C10 witness: instantiates `c10_unhandled_type_returns_undefined` on an
empty heap with a fresh symbol: the result is the `undefined` identifier
and one unused hoisted `var v1;` declaration. -/
theorem c10_unhandled_type_witness :
    serializeValue [] ⟨100, 101, 102, 103, 104⟩ [] none 1 (.symbol 0) ⟨0, [], []⟩
      = some (.ok (.identE "undefined", ⟨1, [.varDecl "v1"], []⟩)) := by
  have h := c10_unhandled_type_returns_undefined [] ⟨100, 101, 102, 103, 104⟩ [] none
    0 ⟨0, [], []⟩ 0 "v1" 1 rfl rfl
  simpa using h

/-! ## Theorems for C1 and C2 -/

/-- Heap for C1: an ordinary object literal `{ x: 1 }` at address 0
(`const o = {}; o.x = 1`), captured twice — e.g. through two free
variables `a` and `b` with `a === b`.  Address 1 is `Object.prototype`
(own built-in `hasOwnProperty`, own `constructor` pointing at `Object`,
null prototype, no enumerable keys) and address 10 is the `Object`
built-in function, registered as the whitelisted `objectAddr` in
`testGlobals`. -/
def sharedObjectHeap : List (Nat × HeapObj) :=
  [(0, .objectData false none (.ref 1) [("x", .number 1)]),
   (1, .objectData true (some (.ref 10)) .nullV []),
   (10, .funcData ⟨"function Object() { [native code] }", "Object", none⟩)]

/-- Heap for C2: an ordinary self-referential object (`const o = {};
o.p = o`) at address 0, with `Object.prototype` at address 1 and the
`Object` built-in at address 10, as in `sharedObjectHeap`. -/
def cyclicObjectHeap : List (Nat × HeapObj) :=
  [(0, .objectData false none (.ref 1) [("p", .ref 0)]),
   (1, .objectData true (some (.ref 10)) .nullV []),
   (10, .funcData ⟨"function Object() { [native code] }", "Object", none⟩)]

/-- Globals record for the C1/C2 heaps: the `Object` built-in lives at
address 10; the other whitelisted globals' addresses do not occur in the
test heaps. -/
def testGlobals : Globals := ⟨10, 101, 102, 103, 104⟩

/-- C1: serializing the same object value twice in one call emits *two*
top-level object-literal declarations for it and returns two distinct
identifiers — the second occurrence is not rendered from the cache,
because no branch of `serializeValue` ever inserts a non-function value
into the per-call value cache (only `serializeFunction` caches, at line
136).  The first run serializes `o = { x: 1 }` as `v1` (serializing
`Object.prototype` as `v2` and referencing the whitelisted `Object` on the
way) and leaves the cache empty, so the second run misses the cache and
re-emits the whole graph as `v4`/`v5`: the statement list ends with four
object declarations — two for `o`, two for `Object.prototype` — where the
claim demands one each. -/
theorem c1_object_not_cached :
    serializeValue sharedObjectHeap testGlobals [] none 6 (.ref 0) ⟨0, [], []⟩
      = some (.ok (.identE "v1",
          ⟨3, [.varDecl "v1", .varDecl "v2", .varDecl "v3",
               .objectDecl "v2" [],
               .objectDecl "v1" [("x", .numLit 1)],
               .setProtoOf "v1" (.identE "v2")], []⟩))
    ∧ serializeValue sharedObjectHeap testGlobals [] none 6 (.ref 0)
        ⟨3, [.varDecl "v1", .varDecl "v2", .varDecl "v3",
             .objectDecl "v2" [],
             .objectDecl "v1" [("x", .numLit 1)],
             .setProtoOf "v1" (.identE "v2")], []⟩
      = some (.ok (.identE "v4",
          ⟨6, [.varDecl "v1", .varDecl "v2", .varDecl "v3",
               .objectDecl "v2" [],
               .objectDecl "v1" [("x", .numLit 1)],
               .setProtoOf "v1" (.identE "v2"),
               .varDecl "v4", .varDecl "v5", .varDecl "v6",
               .objectDecl "v5" [],
               .objectDecl "v4" [("x", .numLit 1)],
               .setProtoOf "v4" (.identE "v5")], []⟩))
    ∧ countObjectDecls
        [.varDecl "v1", .varDecl "v2", .varDecl "v3",
         .objectDecl "v2" [],
         .objectDecl "v1" [("x", .numLit 1)],
         .setProtoOf "v1" (.identE "v2"),
         .varDecl "v4", .varDecl "v5", .varDecl "v6",
         .objectDecl "v5" [],
         .objectDecl "v4" [("x", .numLit 1)],
         .setProtoOf "v4" (.identE "v5")] = 4
    ∧ Expr.identE "v4" ≠ Expr.identE "v1" := by
  refine ⟨rfl, rfl, rfl, by decide⟩

/-- C2 helper: serializing the self-referential object never finishes, for
any counter and any emitted-statement prefix, as long as the value cache
is empty — and since no branch of `serializeValue` inserts non-function
values into the cache (the whitelisted `Object` is returned uncached and
`Object.prototype` is an object), the cache stays empty: each round mints
three hoisted vars, re-serializes `Object.prototype`, and then the
own-property walk recurses into the object itself with the cache still
empty. -/
theorem c2_cycle_aux :
    ∀ fuel (c : Nat) (stm : List Stmt),
      serializeValue cyclicObjectHeap testGlobals [] none fuel (.ref 0) ⟨c, stm, []⟩ = none := by
  intro fuel
  induction fuel with
  | zero => intro c stm; rfl
  | succ k ih =>
    intro c stm
    cases k with
    | zero => rfl
    | succ j =>
      cases j with
      | zero => rfl
      | succ m =>
        have hih := ih (c + 3)
          (stm ++ [.varDecl ("v" ++ Nat.repr (c + 1))] ++ [.varDecl ("v" ++ Nat.repr (c + 2))]
               ++ [.varDecl ("v" ++ Nat.repr (c + 3))]
               ++ [.objectDecl ("v" ++ Nat.repr (c + 2)) []] ++ [])
        show rbind
            (rbind (serializeValue cyclicObjectHeap testGlobals [] none (m + 2) (.ref 0)
                ⟨c + 3, stm ++ [Stmt.varDecl ("v" ++ Nat.repr (c + 1))]
                            ++ [Stmt.varDecl ("v" ++ Nat.repr (c + 2))]
                            ++ [Stmt.varDecl ("v" ++ Nat.repr (c + 3))]
                            ++ [Stmt.objectDecl ("v" ++ Nat.repr (c + 2)) []] ++ [], []⟩)
              (fun es => rbind (serializePropsF
                  (fun w s =>
                    serializeValue cyclicObjectHeap testGlobals [] none (m + 2) w s)
                  none [] es.2)
                (fun ps => some (Except.ok (("p", es.1) :: ps.1, ps.2)))))
            (fun ps => some (Except.ok (Expr.identE ("v" ++ Nat.repr (c + 1)),
               (⟨ps.2.counter, ps.2.statements
                  ++ [Stmt.objectDecl ("v" ++ Nat.repr (c + 1)) ps.1]
                  ++ [Stmt.setProtoOf ("v" ++ Nat.repr (c + 1))
                        (Expr.identE ("v" ++ Nat.repr (c + 2)))],
                 ps.2.valueCache⟩ : SState))))
          = none
        rw [hih]
        rfl

/-- C2: `serializeValue` does not terminate on the ordinary cyclic object
`const o = {}; o.p = o`, whatever the fuel: the object inherits
`hasOwnProperty` from `Object.prototype`, so the walk proceeds past line
404, but because the per-call value cache is never populated for
non-function values, the property walk reaches the object itself on a
cache miss and recurses forever; `serialize` therefore never completes on
this input, contradicting the claim. -/
theorem c2_cycle_divergence (fuel : Nat) :
    serializeValue cyclicObjectHeap testGlobals [] none fuel (.ref 0) ⟨0, [], []⟩ = none :=
  c2_cycle_aux fuel 0 []

end ClosureSerializer
